import Mathlib

/-!
# Verification of the fedimint client state-machine layer

Shallow embedding of `fedimint-client-module/src/sm/state.rs`: the typed
`State` / `StateTransition` contract, the dyn-erased `IState` / `DynState`
wrappers, the `OperationState` wrapper, and the consensus encoding of states.

Modelling conventions:
* a byte stream is a `List Nat`; an `std::io::Write` writer is the list of
  bytes written so far, and writing appends to it;
* a Rust panic (`expect`, `assert_eq!`) is modelled by `Option`: `none` is
  the panicking branch;
* `dyn Any` type erasure is modelled by a family of payload types indexed by
  a `Nat` kind; `downcast_ref` succeeds exactly when the kind indices match;
* an async trigger future is modelled by the value it eventually yields, and
  a `Hasher` by the list of words fed to it so far;
* pieces that live in `fedimint-core` (not part of the embedded sources) are
  modelled from the spec and marked `Modelled from the spec:` in their doc
  comments.
-/

namespace FedimintSM

/-! ## Variable-length integer encoding

Modelled from the spec: "variable-length fields are length-prefixed with a
varint" and `ModuleInstanceId` is written as a varint (`fedimint-core`
encoding layer, not part of the embedded sources). We use a base-128
continuation-bit varint. -/

/-- Modelled from the spec: varint encoding of a natural number, base 128
with a continuation bit on every byte but the last. -/
def varintEncode (n : Nat) : List Nat :=
  if h : n < 128 then [n]
  else (128 + n % 128) :: varintEncode (n / 128)
termination_by n
decreasing_by exact Nat.div_lt_self (by omega) (by omega)

/-- Modelled from the spec: varint decoding, the inverse of `varintEncode`.
Returns the decoded number and the remaining bytes. -/
def varintDecode : List Nat → Option (Nat × List Nat)
  | [] => none
  | b :: rest =>
    if b < 128 then some (b, rest)
    else
      match varintDecode rest with
      | none => none
      | some (m, r) => some ((b - 128) + 128 * m, r)

theorem varintDecode_encode (n : Nat) (rest : List Nat) :
    varintDecode (varintEncode n ++ rest) = some (n, rest) := by
  induction n using Nat.strong_induction_on with
  | _ n ih =>
    by_cases h : n < 128
    · rw [varintEncode, dif_pos h]
      simp [varintDecode, h]
    · rw [varintEncode, dif_neg h]
      have hlt : n / 128 < n := Nat.div_lt_self (by omega) (by omega)
      have hb : ¬ (128 + n % 128 < 128) := by omega
      simp only [List.cons_append, varintDecode, if_neg hb, List.append_eq,
        ih (n / 128) hlt]
      have : 128 + n % 128 - 128 + 128 * (n / 128) = n := by omega
      rw [this]

/-! ## OperationId

Modelled from the spec: an `OperationId` is a "32-byte opaque identifier";
its consensus encoding is its 32 raw bytes (`fedimint-core`, not part of the
embedded sources). -/

/-- Modelled from the spec: a 32-byte opaque operation identifier. -/
def OperationId : Type := { l : List Nat // l.length = 32 }

/-- Modelled from the spec: `OperationId::consensus_encode` appends the 32
raw bytes to the writer. -/
def operationIdEncode (oid : OperationId) (writer : List Nat) : List Nat :=
  writer ++ oid.val

/-- Modelled from the spec: `OperationId::consensus_decode_partial` reads 32
raw bytes. -/
def operationIdDecode (l : List Nat) : Option (OperationId × List Nat) :=
  if h : 32 ≤ l.length then
    some (⟨l.take 32, by simp [List.length_take]; omega⟩, l.drop 32)
  else none

theorem operationIdDecode_encode (oid : OperationId) (rest : List Nat) :
    operationIdDecode (oid.val ++ rest) = some (oid, rest) := by
  obtain ⟨l, hl⟩ := oid
  have hlen : 32 ≤ (l ++ rest).length := by simp [hl]
  simp only [operationIdDecode, dif_pos hlen]
  have ht : (l ++ rest).take 32 = l := by
    rw [← hl]; exact List.take_left l rest
  have hd : (l ++ rest).drop 32 = rest := by
    rw [← hl]; exact List.drop_left l rest
  simp only [Prod.mk.injEq, Option.some.injEq]
  exact ⟨Subtype.ext ht, hd⟩

/-! ## Typed state layer

`DbTx` models `ClientSMDatabaseTransaction`, `J` models `serde_json::Value`,
`G` models `DynGlobalClientContext`; all three are opaque to this file. -/

/-- Type `StateTransition<S>` from `sm/state.rs`: the trigger future is modelled
by the JSON value it eventually yields (`none` when building that value
panicked), and the stored transition function returns `none` on panic. -/
structure StateTransition (DbTx J S : Type) : Type where
  trigger : Option J
  transition : DbTx → J → S → Option S

/-- Constructor `StateTransition::new`: the trigger serializes the typed value `trigger`
to JSON (a failed serialization panics), and the stored transition function
deserializes the JSON value back to a `V` (a failed deserialization panics)
before invoking the typed transition function. `toJson` / `fromJson` model
`serde_json::to_value` / `serde_json::from_value` for `V`. -/
def StateTransition.new {DbTx J S V : Type} (toJson : V → Option J)
    (fromJson : J → Option V) (trigger : V)
    (transition : DbTx → V → S → S) : StateTransition DbTx J S where
  trigger := toJson trigger
  transition := fun dbtx val state =>
    match fromJson val with
    | none => none
    | some typed_val => some (transition dbtx typed_val state)

/-- The `State` trait of `sm/state.rs`, as a first-class dictionary for a
state type `S` with module context type `Ctx`: `transitions` enumerates the
admissible outgoing edges, `operation_id` gives the owning operation (the
implementation is allowed to panic, hence `Option`). -/
structure StateImpl (DbTx J G Ctx S : Type) : Type where
  transitions : S → Ctx → G → List (StateTransition DbTx J S)
  operation_id : S → Option OperationId

/-- Type `OperationState<S>` from `sm/state.rs`: a wrapper carrying the
operation id next to the inner state. -/
structure OperationState (S : Type) : Type where
  operation_id : OperationId
  state : S

/-- The transition function built inside `OperationState::transitions`: run
the inner transition on the inner state and re-install the wrapper's
`operation_id` on the successor. -/
def opTransition {DbTx J S : Type} (transition : DbTx → J → S → Option S) :
    DbTx → J → OperationState S → Option (OperationState S) :=
  fun dbtx value op_state =>
    (transition dbtx value op_state.state).map
      (fun state => { operation_id := op_state.operation_id, state := state })

/-- One wrapped element of the vector built by `OperationState::transitions`:
same trigger, transition function replaced by `opTransition`. -/
def opWrapTransition {DbTx J S : Type} (st : StateTransition DbTx J S) :
    StateTransition DbTx J (OperationState S) where
  trigger := st.trigger
  transition := opTransition st.transition

/-- The `impl State for OperationState<S>` block of `sm/state.rs`:
`transitions` delegates to the inner state and wraps each successor back
into `OperationState`; `operation_id` returns the wrapper's own field,
never consulting the inner `StateImpl`. -/
def OperationState.stateImpl {DbTx J G Ctx S : Type}
    (inner : StateImpl DbTx J G Ctx S) :
    StateImpl DbTx J G Ctx (OperationState S) where
  transitions := fun w context global_context =>
    (inner.transitions w.state context global_context).map opWrapTransition
  operation_id := fun w => some w.operation_id

/-- Model of `impl Encodable for OperationState<S>`: write the operation id, then the
inner state, to the writer. `encS` is the inner state's consensus encoding
as the list of bytes it emits. -/
def OperationState.consensus_encode {S : Type} (encS : S → List Nat)
    (w : OperationState S) (writer : List Nat) : List Nat :=
  operationIdEncode w.operation_id writer ++ encS w.state

/-- Model of `impl Decodable for OperationState<S>` (`consensus_decode_partial`):
read the operation id, then the inner state, propagating failure. -/
def OperationState.consensus_decode {S : Type}
    (decS : List Nat → Option (S × List Nat)) (l : List Nat) :
    Option (OperationState S × List Nat) :=
  match operationIdDecode l with
  | none => none
  | some (operation_id, rest) =>
    match decS rest with
    | none => none
    | some (state, rest2) =>
      some ({ operation_id := operation_id, state := state }, rest2)

/-! ## Dyn-erased layer

`dyn Any` erasure is modelled by a family of concrete module types indexed
by a `Nat` kind: `Ty k` is the concrete `State` type of kind `k` and
`CtxTy k` its associated `ModuleContext` type. `downcast_ref` succeeds
exactly when the kind indices match. -/

/-- The concrete per-module data that the blanket `impl<T: State> IState for
T` closes over: equality (`PartialEq`), hashing (`Hash`, as words fed to the
hasher), consensus encoding and decoding, the typed `State::transitions`,
and `State::operation_id` (allowed to panic). -/
structure ModuleFamily (DbTx J G : Type) : Type 1 where
  CtxTy : Nat → Type
  Ty : Nat → Type
  beq : ∀ k, Ty k → Ty k → Bool
  hashInto : ∀ k, Ty k → List Nat → List Nat
  encode : ∀ k, Ty k → List Nat
  decode : ∀ k, List Nat → Option (Ty k × List Nat)
  transitions : ∀ k, Ty k → CtxTy k → G → List (StateTransition DbTx J (Ty k))
  opId : ∀ k, Ty k → Option OperationId

/-- Type `DynState` from `sm/state.rs`: a boxed `dyn IState` payload (here: a
kind index and a payload of that kind) paired with the `ModuleInstanceId`
(field `.1` in the Rust source). -/
structure DynState {DbTx J G : Type} (F : ModuleFamily DbTx J G) : Type where
  kind : Nat
  payload : F.Ty kind
  instanceId : Nat

/-- Type `DynContext` from `sm/state.rs`: a type-erased module context. -/
structure DynContext {DbTx J G : Type} (F : ModuleFamily DbTx J G) : Type where
  kind : Nat
  payload : F.CtxTy kind

variable {DbTx J G : Type} {F : ModuleFamily DbTx J G}

/-- Model of `state.as_any().downcast_ref::<T>()`: succeeds exactly when the erased
payload has the requested kind. -/
def DynState.downcast (s : DynState F) (k : Nat) : Option (F.Ty k) :=
  if h : s.kind = k then some (h ▸ s.payload) else none

/-- Model of `context.as_any().downcast_ref()`: downcast of the erased module
context to the concrete context type of kind `k`. -/
def DynContext.downcast (c : DynContext F) (k : Nat) : Option (F.CtxTy k) :=
  if h : c.kind = k then some (h ▸ c.payload) else none

/-- Constructor `DynState::from_typed(module_instance_id, typed)`. -/
def DynState.from_typed (module_instance_id : Nat) (k : Nat) (typed : F.Ty k) :
    DynState F :=
  { kind := k, payload := typed, instanceId := module_instance_id }

/-- Method `erased_eq_no_instance_id` from the blanket `IState` impl: downcast the
other payload to our concrete type (`none` models the
`expect("Type is ensured in previous step")` panic) and compare with the
type-specific equality. -/
def DynState.erased_eq_no_instance_id (s other : DynState F) : Option Bool :=
  match other.downcast s.kind with
  | none => none
  | some o => some (F.beq s.kind s.payload o)

/-- Model of `impl PartialEq for DynState`: different `ModuleInstanceId`s compare
unequal without looking at the payloads; otherwise defer to
`erased_eq_no_instance_id`. -/
def DynState.beqDyn (a b : DynState F) : Option Bool :=
  if a.instanceId ≠ b.instanceId then some false
  else a.erased_eq_no_instance_id b

/-- Method `erased_hash_no_instance_id` from the blanket `IState` impl: the
payload's type-specific `Hash`. -/
def DynState.erased_hash_no_instance_id (s : DynState F) (hasher : List Nat) :
    List Nat :=
  F.hashInto s.kind s.payload hasher

/-- Model of `Hasher::write` for a `ModuleInstanceId`: one word fed to the hasher. -/
def hashWrite (n : Nat) (hasher : List Nat) : List Nat :=
  hasher ++ [n]

/-- Model of `impl hash::Hash for DynState`: hash the `ModuleInstanceId` (`self.1`),
then the payload via `erased_hash_no_instance_id`. -/
def DynState.hashDyn (s : DynState F) (hasher : List Nat) : List Nat :=
  s.erased_hash_no_instance_id (hashWrite s.instanceId hasher)

/-- The transition wrapper built inside the blanket `impl<T: State> IState
for T`: downcast the incoming dyn state to `T` (`expect("Wrong module")`
panics otherwise), run the typed transition, and rewrap the successor with
`DynState::from_typed(state.module_instance_id(), new_state)`. -/
def dynWrapTransition (k : Nat) (st : StateTransition DbTx J (F.Ty k)) :
    StateTransition DbTx J (DynState F) where
  trigger := st.trigger
  transition := fun dbtx val state =>
    match state.downcast k with
    | none => none
    | some typed =>
      (st.transition dbtx val typed).map
        (fun new_state => DynState.from_typed state.instanceId k new_state)

/-- Method `IState::transitions` as implemented by the blanket impl (and forwarded
by `DynState`'s `Deref`): downcast the context to the module's concrete
context type (`expect("Wrong module")` panics otherwise, modelled by
`none`), call the typed `State::transitions`, and wrap every edge with
`dynWrapTransition`. -/
def DynState.transitionsDyn (s : DynState F) (context : DynContext F)
    (global_context : G) :
    Option (List (StateTransition DbTx J (DynState F))) :=
  match context.downcast s.kind with
  | none => none
  | some ctx =>
    some ((F.transitions s.kind s.payload ctx global_context).map
      (dynWrapTransition s.kind))

/-- Method `DynState::is_terminal`: true when `transitions` returns an empty
vector (a panicking `transitions` call propagates). -/
def DynState.is_terminal (s : DynState F) (context : DynContext F)
    (global_context : G) : Option Bool :=
  (s.transitionsDyn context global_context).map List.isEmpty

/-- Model of `impl IntoDynInstance for DynState`: `assert_eq!(instance_id, self.1)`
(modelled by `none` on failure), then return `self` unchanged. -/
def DynState.into_dyn (s : DynState F) (instance_id : Nat) :
    Option (DynState F) :=
  if instance_id = s.instanceId then some s else none

/-! ## DynState consensus encoding -/

/-- Modelled from the spec: `ModuleInstanceId::consensus_encode` writes the
id as a varint (`fedimint-core`, not part of the embedded sources). -/
def moduleInstanceIdEncode (i : Nat) (writer : List Nat) : List Nat :=
  writer ++ varintEncode i

/-- Modelled from the spec: `consensus_encode_dyn` writes the opaque module
payload as length-prefixed bytes (`fedimint-core`, not part of the embedded
sources). -/
def dynPayloadEncode (payload : List Nat) (writer : List Nat) : List Nat :=
  writer ++ varintEncode payload.length ++ payload

/-- Model of `impl Encodable for DynState`: write `self.1` (the instance id), then
the payload via `consensus_encode_dyn`. -/
def DynState.consensus_encode (s : DynState F) (writer : List Nat) :
    List Nat :=
  dynPayloadEncode (F.encode s.kind s.payload)
    (moduleInstanceIdEncode s.instanceId writer)

/-- The `ModuleDecoderRegistry`: a partial map from `ModuleInstanceId` to a
module decoder producing a `DynState` (`get_expect` panics on a missing
entry, modelled by `none`). -/
def DecoderRegistry (F : ModuleFamily DbTx J G) : Type :=
  Nat → Option (List Nat → Option (DynState F × List Nat))

/-- Modelled from the spec: the per-module decoder registered for a module
instance whose state type has kind `kindOf module_id`. It reads the
length-prefixed opaque payload, lets the module decode it (requiring full
consumption), and rewraps the result as a `DynState` of that instance. -/
def moduleDecoder (F : ModuleFamily DbTx J G) (kindOf : Nat → Nat)
    (module_id : Nat) (l : List Nat) : Option (DynState F × List Nat) :=
  match varintDecode l with
  | none => none
  | some (len, rest) =>
    if len ≤ rest.length then
      match F.decode (kindOf module_id) (rest.take len) with
      | some (payload, []) =>
        some (DynState.from_typed module_id (kindOf module_id) payload,
          rest.drop len)
      | _ => none
    else none

/-- Model of `impl Decodable for DynState` (`consensus_decode_partial`): read the
`ModuleInstanceId`, look the module decoder up in the registry
(`get_expect` panics when missing), and let it produce the `DynState`. -/
def DynState.consensus_decode (reg : DecoderRegistry F) (l : List Nat) :
    Option (DynState F × List Nat) :=
  match varintDecode l with
  | none => none
  | some (module_id, rest) =>
    match reg module_id with
    | none => none
    | some dec => dec rest

/-! ## A concrete module family

A small executable instantiation used to evaluate the development on
concrete inputs: every kind's state type is `Nat`, a state `n > 0` has one
transition stepping to `n - 1`, and `0` is terminal. -/

/-- A concrete countdown module family: payloads are naturals encoded as a
single byte, and `n` steps down to `n - 1` until it reaches `0`. -/
@[reducible] def demoFamily : ModuleFamily Unit Nat Unit where
  CtxTy := fun _ => Unit
  Ty := fun _ => Nat
  beq := fun _ a b => a == b
  hashInto := fun _ p hasher => hasher ++ [p]
  encode := fun _ p => [p]
  decode := fun _ l =>
    match l with
    | [] => none
    | b :: rest => some (b, rest)
  transitions := fun _ p _ _ =>
    if p = 0 then [] else [⟨some 0, fun _ _ s => some (s - 1)⟩]
  opId := fun _ _ => none

/-- The all-zero 32-byte operation id. -/
def oid0 : OperationId := ⟨List.replicate 32 0, by simp⟩

/-- Kind assignment for the demo registry: every instance id hosts kind 0. -/
def demoKindOf : Nat → Nat := fun _ => 0

/-- A demo decoder registry with the countdown module registered at every
instance id. -/
def demoReg : DecoderRegistry demoFamily :=
  fun module_id => some (moduleDecoder demoFamily demoKindOf module_id)

/-- Single-byte consensus encoding for a demo inner state. -/
def demoEncS : Nat → List Nat := fun x => [x]

/-- Single-byte consensus decoding for a demo inner state. -/
def demoDecS : List Nat → Option (Nat × List Nat) := fun l =>
  match l with
  | [] => none
  | b :: rest => some (b, rest)

/-- The countdown `State` dictionary at the typed layer. -/
def demoInner : StateImpl Unit Nat Unit Unit Nat where
  transitions := fun s _ _ =>
    if s = 0 then [] else [⟨some 0, fun _ _ x => some (x - 1)⟩]
  operation_id := fun _ => none

/-- The wrapped countdown edge as `OperationState::transitions` builds it. -/
def demoWrapped : StateTransition Unit Nat (OperationState Nat) :=
  opWrapTransition ⟨some 0, fun _ _ x => some (x - 1)⟩

/-- A countdown `DynState` of kind 0 with payload `p` and instance id `i`. -/
def demoState (p i : Nat) : DynState demoFamily :=
  { kind := 0, payload := p, instanceId := i }

/-- A demo `DynContext` of kind `k`. -/
def demoCtx (k : Nat) : DynContext demoFamily :=
  { kind := k, payload := () }

/-! ## Claims -/

/-- Claim C2: for every `DynState` and every pair of contexts,
`is_terminal(context, global_context)` returns true if and only if
`transitions(context, global_context)` returns an empty vector. -/
theorem claim_C2 (s : DynState F) (context : DynContext F)
    (global_context : G) :
    s.is_terminal context global_context = some true ↔
      s.transitionsDyn context global_context = some [] := by
  unfold DynState.is_terminal
  cases h : s.transitionsDyn context global_context with
  | none => simp
  | some l =>
    simp only [Option.map_some', Option.some.injEq, List.isEmpty_iff]

/-- Witness for claim C2 at a concrete terminal state. -/
theorem claim_C2_witness :
    DynState.is_terminal (demoState 0 1) (demoCtx 0) () = some true :=
  (claim_C2 (demoState 0 1) (demoCtx 0) ()).mpr rfl

/-- Claim C5: `DynState::consensus_encode` writes the `ModuleInstanceId` as
a varint followed by the opaque module payload as length-prefixed bytes,
for every `DynState` value and every writer. -/
theorem claim_C5 (s : DynState F) (writer : List Nat) :
    s.consensus_encode writer =
      writer ++ (varintEncode s.instanceId ++
        (varintEncode (F.encode s.kind s.payload).length ++
          F.encode s.kind s.payload)) := by
  simp [DynState.consensus_encode, dynPayloadEncode, moduleInstanceIdEncode,
    List.append_assoc]

/-- Claim C6: `OperationState::operation_id` returns the wrapper's own
`operation_id` field, never consulting the inner state's implementation
(which is allowed to panic): the result is independent of the inner
dictionary and is never a panic. -/
theorem claim_C6 {Ctx S : Type} (inner inner' : StateImpl DbTx J G Ctx S)
    (w : OperationState S) :
    (OperationState.stateImpl inner).operation_id w = some w.operation_id
    ∧ (OperationState.stateImpl inner).operation_id w =
        (OperationState.stateImpl inner').operation_id w :=
  ⟨rfl, rfl⟩

/-- Claim C7: the canonical encoding of an `OperationState<S>` is exactly
the encoding of its `operation_id` followed by the encoding of its inner
state, with nothing else written to the writer. -/
theorem claim_C7 {S : Type} (encS : S → List Nat) (w : OperationState S)
    (writer : List Nat) :
    OperationState.consensus_encode encS w writer =
      writer ++ (operationIdEncode w.operation_id [] ++ encS w.state) := by
  simp [OperationState.consensus_encode, operationIdEncode,
    List.append_assoc]

/-- Claim C8: the dyn-erased blanket `IState::transitions` panics when the
supplied `DynContext` does not downcast to the state's concrete module
context type; when the downcast succeeds it delegates to the typed
`State::transitions`, wrapping each edge. -/
theorem claim_C8 (s : DynState F) (context : DynContext F)
    (global_context : G) :
    (context.kind ≠ s.kind →
      s.transitionsDyn context global_context = none)
    ∧ (∀ h : context.kind = s.kind,
        s.transitionsDyn context global_context =
          some ((F.transitions s.kind s.payload (h ▸ context.payload)
            global_context).map (dynWrapTransition s.kind))) := by
  constructor
  · intro h
    unfold DynState.transitionsDyn DynContext.downcast
    rw [dif_neg h]
  · intro h
    unfold DynState.transitionsDyn DynContext.downcast
    rw [dif_pos h]

/-- Witness for claim C8: a mismatched context kind panics; a matching one
yields the typed transition set (empty for the terminal demo state). -/
theorem claim_C8_witness :
    (DynState.transitionsDyn (demoState 3 7) (demoCtx 1) () = none)
    ∧ (DynState.transitionsDyn (demoState 0 7) (demoCtx 0) () = some []) :=
  ⟨(claim_C8 (demoState 3 7) (demoCtx 1) ()).1 (by decide),
   by rw [(claim_C8 (demoState 0 7) (demoCtx 0) ()).2 rfl]; rfl⟩

/-- Claim C10: `DynState::into_dyn(instance_id)` panics unless
`instance_id` equals the stored `ModuleInstanceId`; when they are equal it
returns the state unchanged. -/
theorem claim_C10 (s : DynState F) (instance_id : Nat) :
    (instance_id ≠ s.instanceId → s.into_dyn instance_id = none)
    ∧ s.into_dyn s.instanceId = some s := by
  constructor
  · intro h
    unfold DynState.into_dyn
    rw [if_neg h]
  · unfold DynState.into_dyn
    rw [if_pos rfl]

/-- Witness for claim C10: a wrong instance id panics, the stored one
returns the state unchanged. -/
theorem claim_C10_witness :
    (DynState.into_dyn (demoState 4 2) 3 = none)
    ∧ (DynState.into_dyn (demoState 4 2) 2 = some (demoState 4 2)) :=
  ⟨(claim_C10 (demoState 4 2) 3).1 (by decide),
   (claim_C10 (demoState 4 2) 3).2⟩

/-- Helper: `DynState` equality on two states of the same concrete type is
instance-id equality combined with the type-specific payload equality. -/
theorem beqDyn_mk (k : Nat) (pa pb : F.Ty k) (ia ib : Nat) :
    DynState.beqDyn (F := F) ⟨k, pa, ia⟩ ⟨k, pb, ib⟩ =
      some ((ia == ib) && F.beq k pa pb) := by
  by_cases hib : ia = ib
  · subst hib
    simp [DynState.beqDyn, DynState.erased_eq_no_instance_id,
      DynState.downcast]
  · have hf : (ia == ib) = false := by simp [hib]
    simp [DynState.beqDyn, hib, hf]

/-- Claim C1: `DynState` equality holds iff the `ModuleInstanceId`s are
equal and the payloads compare equal under the wrapped concrete type's
equality (states with distinct instance ids always compare unequal);
hashing writes exactly the `ModuleInstanceId` followed by the payload's
type-specific hash, so equal `DynState`s hash equal (given the usual
`Eq`/`Hash` coherence of the concrete type). -/
theorem claim_C1
    (hcoh : ∀ k (x y : F.Ty k), F.beq k x y = true →
      ∀ acc, F.hashInto k x acc = F.hashInto k y acc)
    (k ia ib : Nat) (pa pb : F.Ty k) :
    (DynState.beqDyn (F := F) ⟨k, pa, ia⟩ ⟨k, pb, ib⟩ =
      some ((ia == ib) && F.beq k pa pb))
    ∧ (∀ a b : DynState F, a.instanceId ≠ b.instanceId →
        a.beqDyn b = some false)
    ∧ (∀ s : DynState F, ∀ hasher, s.hashDyn hasher =
        s.erased_hash_no_instance_id (hasher ++ [s.instanceId]))
    ∧ (DynState.beqDyn (F := F) ⟨k, pa, ia⟩ ⟨k, pb, ib⟩ = some true →
        ∀ hasher, DynState.hashDyn (F := F) ⟨k, pa, ia⟩ hasher =
          DynState.hashDyn (F := F) ⟨k, pb, ib⟩ hasher) := by
  refine ⟨beqDyn_mk k pa pb ia ib, ?_, fun s hasher => rfl, ?_⟩
  · intro a b hne
    unfold DynState.beqDyn
    rw [if_pos hne]
  · intro htrue hasher
    rw [beqDyn_mk, Option.some.injEq] at htrue
    have hib : ia = ib := by
      by_contra hne
      simp [hne] at htrue
    subst hib
    have hpq : F.beq k pa pb = true := by simpa using htrue
    simp only [DynState.hashDyn, DynState.erased_hash_no_instance_id]
    exact hcoh k pa pb hpq _

/-- Witness for claim C1: two equal countdown states compare equal with
equal instance ids and payloads, and hash alike. -/
theorem claim_C1_witness :
    (DynState.beqDyn (demoState 5 1) (demoState 5 1) =
      some (((1 : Nat) == 1) && demoFamily.beq 0 5 5))
    ∧ (DynState.hashDyn (demoState 5 1) [] =
        DynState.hashDyn (demoState 5 1) []) := by
  have h := claim_C1 (F := demoFamily)
    (fun k x y hxy acc => by
      have hxy' : x = y := eq_of_beq hxy
      rw [hxy'])
    0 1 1 (5 : Nat) (5 : Nat)
  exact ⟨h.1, h.2.2.2 (by rw [h.1]; rfl) []⟩

/-- Claim C4: every transition in the vector returned by
`OperationState::transitions` re-installs the wrapper's own `operation_id`
on every successor it builds: a committed successor carries the same
`operation_id` as the pre-state it was applied to. -/
theorem claim_C4 {Ctx S : Type} (inner : StateImpl DbTx J G Ctx S)
    (w : OperationState S) (context : Ctx) (global_context : G)
    (st : StateTransition DbTx J (OperationState S))
    (hst : st ∈ (OperationState.stateImpl inner).transitions w context
      global_context)
    (dbtx : DbTx) (val : J) (s' : OperationState S)
    (h : st.transition dbtx val w = some s') :
    s'.operation_id = w.operation_id := by
  simp only [OperationState.stateImpl] at hst
  rcases List.mem_map.mp hst with ⟨st0, -, rfl⟩
  simp only [opWrapTransition, opTransition] at h
  rcases Option.map_eq_some'.mp h with ⟨ns, -, hns⟩
  rw [← hns]

/-- Witness for claim C4: stepping the wrapped countdown from 1 to 0 keeps
the operation id. -/
theorem claim_C4_witness :
    (OperationState.mk oid0 (0 : Nat)).operation_id =
      (OperationState.mk oid0 (1 : Nat)).operation_id :=
  claim_C4 demoInner (OperationState.mk oid0 1) () () demoWrapped
    (List.Mem.head _) () 0 (OperationState.mk oid0 0) rfl

/-- Claim C9: a `StateTransition` built by `StateTransition::new` stores as
trigger the serialization of the typed trigger value, and its stored
transition function deserializes that JSON value back before invoking the
typed transition function; so whenever serde round-trips the value, the
typed transition receives exactly the trigger's output, and a failed
serialization or deserialization panics. -/
theorem claim_C9 {S V : Type} (toJson : V → Option J)
    (fromJson : J → Option V) (v : V) (transitionFn : DbTx → V → S → S)
    (j : J) (hser : toJson v = some j) (hde : fromJson j = some v)
    (dbtx : DbTx) (s : S) :
    ((StateTransition.new toJson fromJson v transitionFn).trigger = some j)
    ∧ ((StateTransition.new toJson fromJson v transitionFn).transition
        dbtx j s = some (transitionFn dbtx v s))
    ∧ (∀ j', fromJson j' = none →
        (StateTransition.new toJson fromJson v transitionFn).transition
          dbtx j' s = none)
    ∧ (∀ v', toJson v' = none →
        (StateTransition.new toJson fromJson v' transitionFn).trigger = none) := by
  refine ⟨?_, ?_, ?_, ?_⟩
  · simp [StateTransition.new, hser]
  · simp [StateTransition.new, hde]
  · intro j' hj'
    simp [StateTransition.new, hj']
  · intro v' hv'
    simp [StateTransition.new, hv']

/-- Serialization used by the C9 witness: naturals below 100 survive the
round trip, larger ones fail to serialize or deserialize. -/
def demoToJson : Nat → Option Nat := fun v => if v < 100 then some v else none

/-- Deserialization used by the C9 witness. -/
def demoFromJson : Nat → Option Nat := fun j => if j < 100 then some j else none

/-- The concrete transition built by `StateTransition::new` for the C9
witness. -/
def demoNewTransition (v : Nat) : StateTransition Unit Nat Nat :=
  StateTransition.new demoToJson demoFromJson v (fun _ x s => x + s)

/-- Witness for claim C9 on a concrete round-tripping value and a concrete
failing one. -/
theorem claim_C9_witness :
    ((demoNewTransition 5).trigger = some 5)
    ∧ ((demoNewTransition 5).transition () 5 2 = some 7)
    ∧ ((demoNewTransition 5).transition () 200 2 = none)
    ∧ ((demoNewTransition 200).trigger = none) := by
  obtain ⟨h1, h2, h3, h4⟩ := claim_C9 demoToJson demoFromJson 5
    (fun _ x s => x + s) 5 (by decide) (by decide) () 2
  exact ⟨h1, h2, h3 200 (by decide), h4 200 (by decide)⟩

/-- Claim C3: decoding the bytes produced by `consensus_encode` under the
module decoder registry in effect yields the original value: for a
`DynState` whose module decoder is in the registry (correct for that
module's state type), and for every `OperationState<S>` given a
round-tripping inner codec, returning the same `operation_id` and the same
inner state. -/
theorem claim_C3 {S : Type} (reg : DecoderRegistry F) (kindOf : Nat → Nat)
    (s : DynState F)
    (hreg : reg s.instanceId = some (moduleDecoder F kindOf s.instanceId))
    (hkind : kindOf s.instanceId = s.kind)
    (hdec : F.decode s.kind (F.encode s.kind s.payload) = some (s.payload, []))
    (encS : S → List Nat) (decS : List Nat → Option (S × List Nat))
    (hS : ∀ x rest, decS (encS x ++ rest) = some (x, rest))
    (w : OperationState S) :
    (∀ rest, DynState.consensus_decode reg (s.consensus_encode [] ++ rest) =
      some (s, rest))
    ∧ (∀ rest, OperationState.consensus_decode decS
        (OperationState.consensus_encode encS w [] ++ rest) =
      some (w, rest)) := by
  constructor
  · intro rest
    obtain ⟨k, p, i⟩ := s
    simp only at hreg hkind hdec
    subst hkind
    unfold DynState.consensus_encode dynPayloadEncode moduleInstanceIdEncode
    unfold DynState.consensus_decode
    simp only [List.nil_append, List.append_assoc, varintDecode_encode]
    rw [hreg]
    unfold moduleDecoder
    simp only [varintDecode_encode]
    have hle : (F.encode (kindOf i) p).length ≤
        (F.encode (kindOf i) p ++ rest).length := by
      simp
    rw [if_pos hle, List.take_left, hdec, List.drop_left]
    rfl
  · intro rest
    obtain ⟨oid, st⟩ := w
    unfold OperationState.consensus_encode operationIdEncode
    unfold OperationState.consensus_decode
    simp only [List.nil_append, List.append_assoc, operationIdDecode_encode,
      hS]

/-- Witness for claim C3: a concrete countdown state and a concrete wrapped
state both survive the encode/decode round trip. -/
theorem claim_C3_witness :
    (DynState.consensus_decode demoReg
        (DynState.consensus_encode (demoState 5 3) [] ++ [9]) =
      some (demoState 5 3, [9]))
    ∧ (OperationState.consensus_decode demoDecS
        (OperationState.consensus_encode demoEncS
          (OperationState.mk oid0 (7 : Nat)) [] ++ []) =
      some (OperationState.mk oid0 (7 : Nat), [])) :=
  ⟨(claim_C3 demoReg demoKindOf (demoState 5 3) rfl rfl rfl demoEncS demoDecS
      (fun _ _ => rfl) (OperationState.mk oid0 7)).1 [9],
   (claim_C3 demoReg demoKindOf (demoState 5 3) rfl rfl rfl demoEncS demoDecS
      (fun _ _ => rfl) (OperationState.mk oid0 7)).2 []⟩

end FedimintSM
